import Mathlib

/-!
Verification of the puck daemon core (github.com/sandwich-labs/puck).

This file gives a shallow embedding of the lifecycle manager (package
`puck`, `Manager`), the metadata store (package `store`), the HTTP router
(package `network`, `Router`) and the dispatcher (package `daemon`), and
proves or refutes the specified properties against it.

Modelling conventions:
- the filesystem is a list of existing paths; `os.MkdirAll` adds the path,
  `os.RemoveAll dir` removes every path at or under `dir`;
- fallible external calls (podman, stat, the SQL driver) are driven by an
  explicit environment record, one field per call site, so that every
  failure path of the Go source is reachable in the model;
- the store tables are lists of rows; the `UNIQUE` and
  `ON DELETE CASCADE` constraints of the schema in `store/db.go` are
  modelled where the source relies on them;
- `ListPucks` returns rows newest-first (`ORDER BY created_at DESC`), so
  the `pucks` list of a state is kept in that order and `CreatePuck`
  conses the new row.
-/

/-! ## Port allocation (`Manager.findAvailablePort`) -/

/-- `BaseHostPort` from the Go source: the starting port for
auto-assigned puck routing ports. -/
def BaseHostPort : Nat := 9000

/-- The loop body of `findAvailablePort`: starting at `port`, try at most
`fuel` consecutive ports, returning the first one that is not in `used`.
Mirrors `for port := BaseHostPort; port < BaseHostPort+1000; port++`. -/
def findPortFrom (used : List Int) (port : Nat) : Nat → Option Nat
  | 0 => none
  | fuel + 1 =>
    if (port : Int) ∈ used then findPortFrom used (port + 1) fuel
    else some port

/-- `Manager.findAvailablePort`: collect the host ports that are `> 0`
from the existing puck rows, then scan the 1000 ports starting at
`BaseHostPort` for the first unused one. -/
def findAvailablePort (hostPorts : List Int) : Option Nat :=
  findPortFrom (hostPorts.filter (fun p => 0 < p)) BaseHostPort 1000

theorem findPortFrom_some {used : List Int} {start fuel p : Nat}
    (h : findPortFrom used start fuel = some p) :
    start ≤ p ∧ p < start + fuel ∧ (p : Int) ∉ used ∧
      ∀ q : Nat, start ≤ q → q < p → (q : Int) ∈ used := by
  induction fuel generalizing start with
  | zero => simp [findPortFrom] at h
  | succ n ih =>
    rw [findPortFrom] at h
    by_cases hmem : (start : Int) ∈ used
    · simp only [hmem, if_pos] at h
      obtain ⟨h1, h2, h3, h4⟩ := ih h
      refine ⟨by omega, by omega, h3, ?_⟩
      intro q hq1 hq2
      rcases Nat.eq_or_lt_of_le hq1 with heq | hlt
      · simpa [← heq] using hmem
      · exact h4 q hlt hq2
    · simp only [hmem, if_neg, not_false_iff, Option.some.injEq] at h
      subst h
      exact ⟨le_refl _, by omega, hmem, fun q hq1 hq2 => absurd hq1 (by omega)⟩

theorem findPortFrom_none {used : List Int} {start fuel : Nat}
    (h : findPortFrom used start fuel = none) :
    ∀ q : Nat, start ≤ q → q < start + fuel → (q : Int) ∈ used := by
  induction fuel generalizing start with
  | zero => intro q h1 h2; omega
  | succ n ih =>
    rw [findPortFrom] at h
    by_cases hmem : (start : Int) ∈ used
    · simp only [hmem, if_pos] at h
      intro q hq1 hq2
      rcases Nat.eq_or_lt_of_le hq1 with heq | hlt
      · simpa [← heq] using hmem
      · exact ih h q hlt (by omega)
    · simp [hmem] at h

theorem findPortFrom_isSome {used : List Int} {start fuel : Nat}
    (h : ∃ q : Nat, start ≤ q ∧ q < start + fuel ∧ (q : Int) ∉ used) :
    findPortFrom used start fuel ≠ none := by
  intro hnone
  obtain ⟨q, h1, h2, h3⟩ := h
  exact h3 (findPortFrom_none hnone q h1 h2)

theorem mem_filter_pos_iff {hostPorts : List Int} {q : Nat} (hq : 9000 ≤ q) :
    (q : Int) ∈ hostPorts.filter (fun p => 0 < p) ↔ (q : Int) ∈ hostPorts := by
  rw [List.mem_filter]
  constructor
  · exact fun h => h.1
  · intro h
    refine ⟨h, by simp; omega⟩

/-- C2: port allocation returns the lowest port `p` with
`9000 ≤ p < 10000` that is not the routing port of any existing puck row
(hence distinct from every live routing port, so injectivity is preserved
and freed ports are reused first), and returns `none` (Exhausted) exactly
when every port in the range appears among the rows. -/
theorem c2_port_allocation (hostPorts : List Int) :
    (∀ p : Nat, findAvailablePort hostPorts = some p →
      9000 ≤ p ∧ p < 10000 ∧ (p : Int) ∉ hostPorts ∧
        (∀ q : Nat, 9000 ≤ q → q < p → (q : Int) ∈ hostPorts) ∧
        (∀ hp ∈ hostPorts, (p : Int) ≠ hp)) ∧
    (findAvailablePort hostPorts = none ↔
      ∀ q : Nat, 9000 ≤ q → q < 10000 → (q : Int) ∈ hostPorts) := by
  constructor
  · intro p hsome
    obtain ⟨h1, h2, h3, h4⟩ := findPortFrom_some hsome
    have hp9 : 9000 ≤ p := h1
    have hnot : (p : Int) ∉ hostPorts := by
      intro hmem
      exact h3 ((mem_filter_pos_iff hp9).mpr hmem)
    refine ⟨hp9, by simp only [BaseHostPort] at h2; omega, hnot, ?_, ?_⟩
    · intro q hq1 hq2
      exact (mem_filter_pos_iff hq1).mp (h4 q hq1 hq2)
    · intro hp hmem heq
      exact hnot (heq ▸ hmem)
  · constructor
    · intro hnone q hq1 hq2
      exact (mem_filter_pos_iff hq1).mp
        (findPortFrom_none hnone q hq1 (by simp only [BaseHostPort]; omega))
    · intro hall
      cases hfind : findAvailablePort hostPorts with
      | none => rfl
      | some p =>
        obtain ⟨h1, h2, h3, _⟩ := findPortFrom_some hfind
        exact absurd ((mem_filter_pos_iff h1).mpr
          (hall p h1 (by simp only [BaseHostPort] at h2; omega))) h3

/-- Witness for C2: on rows holding ports 9000 and 9001, the allocator
returns 9002, which is in range, unused, and minimal. -/
theorem c2_port_allocation_witness :
    findAvailablePort [9000, 9001] = some 9002 ∧
      (9002 : Int) ∉ [(9000 : Int), 9001] ∧
      ∀ q : Nat, 9000 ≤ q → q < 9002 → (q : Int) ∈ [(9000 : Int), 9001] := by
  have h : findAvailablePort [9000, 9001] = some 9002 := by decide
  obtain ⟨_, _, h3, h4, _⟩ := (c2_port_allocation [9000, 9001]).1 9002 h
  exact ⟨h, h3, h4⟩

/-! ## Data model (`store` package) -/

/-- Puck status values from `store` (`StatusRunning`, `StatusStopped`,
`StatusCheckpointed`, `StatusCreating`, `StatusError`). -/
inductive Status where
  | creating
  | running
  | stopped
  | checkpointed
  | error
deriving Repr, DecidableEq

/-- A row of the `pucks` table (`store.Puck`), restricted to the fields
the verified operations read or write. -/
structure Puck where
  id : String
  name : String
  image : String
  status : Status
  volumeDir : String
  ports : List String
  hostPort : Int
  containerIP : String
deriving Repr, DecidableEq

/-- A row of the `snapshots` table (`store.Snapshot`). -/
structure SnapshotRow where
  id : String
  puckID : String
  puckName : String
  name : String
  path : String
  sizeBytes : Int
deriving Repr, DecidableEq

/-- A container known to the runtime, identified by its opaque id and
carrying the name it was created with. -/
structure Container where
  id : String
  name : String
deriving Repr, DecidableEq

/-- The combined state the lifecycle manager mutates: the store tables,
the runtime containers, and the filesystem (a list of existing paths). -/
structure SysState where
  pucks : List Puck
  snapshots : List SnapshotRow
  containers : List Container
  fs : List String
deriving Repr, DecidableEq

/-- A path `q` lies in the tree rooted at `dir` (it is `dir` itself or a
path below it). -/
def inTree (dir q : String) : Bool :=
  q == dir || List.isPrefixOf (dir ++ "/").data q.data

/-- `os.RemoveAll dir`: drop every path at or under `dir`. -/
def removeTree (fs : List String) (dir : String) : List String :=
  fs.filter (fun q => !(inTree dir q))

/-- Some path at or under `dir` exists. -/
def treeExists (fs : List String) (dir : String) : Bool :=
  fs.any (inTree dir)

/-- `DB.GetPuck`: look up a puck row by name (`WHERE name = ?`). -/
def getPuck (st : SysState) (n : String) : Option Puck :=
  st.pucks.find? (fun p => p.name == n)

/-- `DB.UpdatePuckStatus`: set the status of the row with the given name
(the call sites in `Manager` that discard its error are modelled as this
plain update). -/
def setPuckStatus (st : SysState) (n : String) (s : Status) : SysState :=
  { st with pucks := st.pucks.map (fun p =>
      if p.name == n then { p with status := s } else p) }

/-! ## `Manager.Create` -/

/-- `puck.CreateOptions`. -/
structure CreateOptions where
  name : String
  image : String
  ports : List String
deriving Repr, DecidableEq

/-- Outcomes of the external calls `Manager.Create` performs, one field
per call site: the index (into `home`, `etc`, `var`) at which
`os.MkdirAll` fails, if any; the id returned by `CreateContainer` (`none`
is failure); whether `StartContainer` succeeds; the result of
`GetContainerIP`; whether the `CreatePuck` insert succeeds at the driver
level. -/
structure CreateEnv where
  mkdirFailsAt : Option Nat
  createContainer : Option String
  startOk : Bool
  containerIP : Option String
  dbOk : Bool
deriving Repr, DecidableEq

/-- The subdirectories materialized under the puck volume dir. -/
def volumeSubdirs : List String := ["home", "etc", "var"]

/-- The mkdir loop of `Manager.Create`: create each subdirectory in turn;
on the first failure return immediately, leaving the directories already
created on disk (the source has no cleanup on this path). -/
def mkdirSubdirs (vd : String) (failsAt : Option Nat) (i : Nat) :
    List String → List String → Bool × List String
  | [], fs => (true, fs)
  | d :: rest, fs =>
    if failsAt == some i then (false, fs)
    else mkdirSubdirs vd failsAt (i + 1) rest ((vd ++ "/" ++ d) :: fs)

/-- `Manager.Create`: default the image, allocate a routing port,
materialize the volume tree, create and start the container, read the IP
best-effort, and insert the row; each failure path performs exactly the
cleanup the Go source performs. Returns the result together with the
final state. -/
def createPuck (defaultImage : String) (env : CreateEnv) (st : SysState)
    (opts : CreateOptions) : Except String Puck × SysState :=
  let image := if opts.image == "" then defaultImage else opts.image
  match findAvailablePort (st.pucks.map (fun p => p.hostPort)) with
  | none => (.error "finding available port: no available ports", st)
  | some hostPort =>
    let volumeDir := "pucks/" ++ opts.name
    match mkdirSubdirs volumeDir env.mkdirFailsAt 0 volumeSubdirs st.fs with
    | (false, fs1) => (.error "creating volume directory", { st with fs := fs1 })
    | (true, fs1) =>
      match env.createContainer with
      | none => (.error "creating container", { st with fs := removeTree fs1 volumeDir })
      | some cid =>
        let st1 : SysState :=
          { st with fs := fs1, containers := ⟨cid, opts.name⟩ :: st.containers }
        if !env.startOk then
          (.error "starting container",
            { st1 with
                containers := st1.containers.filter (fun c => c.id != cid),
                fs := removeTree st1.fs volumeDir })
        else
          let ip := env.containerIP.getD ""
          let p : Puck :=
            { id := cid, name := opts.name, image := image, status := .running,
              volumeDir := volumeDir, ports := opts.ports,
              hostPort := (hostPort : Int), containerIP := ip }
          if env.dbOk && st.pucks.all (fun q => q.name != opts.name) then
            (.ok p, { st1 with pucks := p :: st1.pucks })
          else
            (.error "saving puck",
              { st1 with
                  containers := st1.containers.filter (fun c => c.id != cid),
                  fs := removeTree st1.fs volumeDir })

/-- A result is a failure. -/
def isErr {α : Type} (r : Except String α) : Bool :=
  match r with
  | .error _ => true
  | .ok _ => false

theorem mkdirSubdirs_none_ok (vd : String) (i : Nat) (dirs fs : List String) :
    (mkdirSubdirs vd none i dirs fs).1 = true := by
  induction dirs generalizing i fs with
  | nil => rfl
  | cons d rest ih => simpa [mkdirSubdirs] using ih (i + 1) _

theorem treeExists_removeTree (fs : List String) (d : String) :
    treeExists (removeTree fs d) d = false := by
  rw [treeExists, removeTree, Bool.eq_false_iff]
  intro h
  rw [List.any_eq_true] at h
  obtain ⟨q, hq, hin⟩ := h
  rw [List.mem_filter, hin] at hq
  simp at hq

theorem mem_filter_cons_ne {cid n : String} {l : List Container}
    (hcon : ∀ c ∈ l, c.name ≠ n) :
    ∀ c ∈ List.filter (fun c => c.id != cid) (⟨cid, n⟩ :: l), c.name ≠ n := by
  intro c hc
  rw [List.mem_filter] at hc
  rcases hc with ⟨hmem, hpass⟩
  rcases List.mem_cons.mp hmem with heq | hmem'
  · subst heq; simp at hpass
  · exact hcon c hmem'

/-- The state used by the C1 instances: empty store, no containers, empty
filesystem. -/
def c1State : SysState := ⟨[], [], [], []⟩

/-- Environment making `os.MkdirAll` fail at index 1, i.e. while creating
the `etc` subdirectory, after `home` was created. -/
def c1Env : CreateEnv :=
  { mkdirFailsAt := some 1, createContainer := some "cid-1", startOk := true,
    containerIP := none, dbOk := true }

/-- Options for the C1 instances. -/
def c1Opts : CreateOptions := { name := "a", image := "", ports := [] }

/-- C1 (counterexample): when `os.MkdirAll` fails while materializing the
`etc` subdirectory, `Manager.Create` returns a failure but the already
created `home` subdirectory is left on disk — the final state does contain
a persistence tree `pucks/a`, contradicting the claim. -/
theorem c1_counterexample :
    isErr (createPuck "fedora:latest" c1Env c1State c1Opts).1 = true ∧
      treeExists (createPuck "fedora:latest" c1Env c1State c1Opts).2.fs
        "pucks/a" = true := by
  exact ⟨by decide, by decide⟩

/-- C1 (amended): for every `Manager.Create` invocation that returns a
failure, started from a state with no puck row, no container and no
persistence tree for that name, the final state contains no puck row and
no container for that name; and unless the failure happened partway
through materializing the `home`/`etc`/`var` subdirectories, it contains
no persistence tree for that name either (a partial materialization
failure leaves the already created subdirectories on disk, as the
counterexample shows). -/
theorem c1_create_failure_cleanup
    (defaultImage : String) (env : CreateEnv) (st : SysState) (opts : CreateOptions)
    (hrow : ∀ p ∈ st.pucks, p.name ≠ opts.name)
    (hcon : ∀ c ∈ st.containers, c.name ≠ opts.name)
    (htree : treeExists st.fs ("pucks/" ++ opts.name) = false)
    (hfail : isErr (createPuck defaultImage env st opts).1 = true) :
    (∀ p ∈ (createPuck defaultImage env st opts).2.pucks, p.name ≠ opts.name) ∧
    (∀ c ∈ (createPuck defaultImage env st opts).2.containers, c.name ≠ opts.name) ∧
    ((env.mkdirFailsAt = none ∨ env.mkdirFailsAt = some 0) →
      treeExists (createPuck defaultImage env st opts).2.fs
        ("pucks/" ++ opts.name) = false) := by
  unfold createPuck at hfail ⊢
  cases hfp : findAvailablePort (st.pucks.map (fun p => p.hostPort)) with
  | none =>
    simp only [hfp]
    exact ⟨hrow, hcon, fun _ => htree⟩
  | some hostPort =>
    simp only [hfp] at hfail ⊢
    cases hmk : mkdirSubdirs ("pucks/" ++ opts.name) env.mkdirFailsAt 0
        volumeSubdirs st.fs with
    | mk ok fs1 =>
      cases ok with
      | false =>
        simp only [hmk]
        refine ⟨hrow, hcon, ?_⟩
        rintro (hnone | hzero)
        · rw [hnone] at hmk
          have := mkdirSubdirs_none_ok ("pucks/" ++ opts.name) 0 volumeSubdirs st.fs
          rw [hmk] at this
          simp at this
        · rw [hzero] at hmk
          simp [mkdirSubdirs, volumeSubdirs] at hmk
          simpa [hmk] using htree
      | true =>
        simp only [hmk] at hfail ⊢
        cases hcc : env.createContainer with
        | none =>
          exact ⟨hrow, hcon, fun _ => treeExists_removeTree _ _⟩
        | some cid =>
          simp only [hcc] at hfail ⊢
          cases hst : env.startOk with
          | false =>
            exact ⟨hrow, mem_filter_cons_ne hcon, fun _ => treeExists_removeTree _ _⟩
          | true =>
            simp only [hst] at hfail ⊢
            cases hdb : (env.dbOk && st.pucks.all (fun q => q.name != opts.name)) with
            | true =>
              rw [hdb] at hfail
              simp [isErr] at hfail
            | false =>
              exact ⟨hrow, mem_filter_cons_ne hcon, fun _ => treeExists_removeTree _ _⟩

/-- Environment for the C1 witness: `CreateContainer` itself fails. -/
def c1WitnessEnv : CreateEnv :=
  { mkdirFailsAt := none, createContainer := none, startOk := true,
    containerIP := none, dbOk := true }

/-- Witness for the amended C1 theorem at a concrete failing input. -/
theorem c1_create_failure_cleanup_witness :
    (∀ p ∈ (createPuck "fedora:latest" c1WitnessEnv c1State c1Opts).2.pucks,
      p.name ≠ c1Opts.name) ∧
    (∀ c ∈ (createPuck "fedora:latest" c1WitnessEnv c1State c1Opts).2.containers,
      c.name ≠ c1Opts.name) ∧
    ((c1WitnessEnv.mkdirFailsAt = none ∨ c1WitnessEnv.mkdirFailsAt = some 0) →
      treeExists (createPuck "fedora:latest" c1WitnessEnv c1State c1Opts).2.fs
        ("pucks/" ++ c1Opts.name) = false) :=
  c1_create_failure_cleanup "fedora:latest" c1WitnessEnv c1State c1Opts
    (by intro p hp; simp [c1State] at hp)
    (by intro c hc; simp [c1State] at hc)
    rfl rfl

/-! ## `Manager.Destroy` -/

/-- Outcomes of the external calls `Manager.Destroy` performs: the value
observed from `IsRunning` (the source discards its error, so an error
reads as `false`), whether `StopContainer` succeeds, and whether
`RemoveContainer` succeeds (it fails in particular when the container has
already vanished, since the podman client passes the runtime error
through). -/
structure DestroyEnv where
  isRunning : Bool
  stopOk : Bool
  removeOk : Bool
deriving Repr, DecidableEq

/-- `Manager.Destroy`: look up the row; unless `force`, stop a running
container (bubbling up stop failures); remove the container, aborting on
failure unless `force`; best-effort remove the volume tree; delete the
row, which cascades to its snapshot rows (`ON DELETE CASCADE` on
`snapshots.puck_id`). -/
def destroyPuck (env : DestroyEnv) (st : SysState) (n : String) (force : Bool) :
    Except String Unit × SysState :=
  match getPuck st n with
  | none => (.error "puck not found", st)
  | some p =>
    if !force && env.isRunning && !env.stopOk then
      (.error "stopping container", st)
    else if !env.removeOk && !force then
      (.error "removing container", st)
    else
      let containers1 :=
        if env.removeOk then st.containers.filter (fun c => c.id != p.id)
        else st.containers
      let fs1 := if p.volumeDir != "" then removeTree st.fs p.volumeDir else st.fs
      (.ok (), { st with
          containers := containers1, fs := fs1,
          pucks := st.pucks.filter (fun q => q.name != n),
          snapshots := st.snapshots.filter (fun s => s.puckID != p.id) })

/-- The puck used by the C4/C6 instances. -/
def c4Puck : Puck :=
  { id := "c1", name := "a", image := "img", status := .stopped,
    volumeDir := "pucks/a", ports := [], hostPort := 9000, containerIP := "" }

/-- The recorded snapshot of `c4Puck`, with its archive on disk. -/
def c4Snap : SnapshotRow :=
  { id := "s1", puckID := "c1", puckName := "a", name := "snap1",
    path := "snapshots/a/snap1.tar.gz", sizeBytes := 3 }

/-- State holding `c4Puck`, its snapshot row, its container, its volume
tree and the snapshot archive file. -/
def c4State : SysState :=
  ⟨[c4Puck], [c4Snap], [⟨"c1", "a"⟩],
    ["pucks/a/home", "snapshots/a/snap1.tar.gz"]⟩

/-- Destroy environment in which every runtime call succeeds. -/
def c4Env : DestroyEnv := { isRunning := false, stopOk := true, removeOk := true }

/-- C4 (counterexample): Destroy succeeds and the snapshot rows are
cascade-deleted, but the previously recorded archive file
`snapshots/a/snap1.tar.gz` is still on disk afterwards — Destroy never
touches the snapshots directory, contradicting the claim. -/
theorem c4_counterexample :
    (destroyPuck c4Env c4State "a" false).1 = .ok () ∧
      (destroyPuck c4Env c4State "a" false).2.snapshots = [] ∧
      "snapshots/a/snap1.tar.gz" ∈ (destroyPuck c4Env c4State "a" false).2.fs := by
  refine ⟨rfl, by decide, by decide⟩

/-- C4 (amended): after a successful `Destroy(name, force)` of the row
`p`, the store holds no puck row with that name and no snapshot row of
`p` (the delete cascades), and the filesystem loses only the puck volume
tree: every path outside that tree — in particular every archive file
under the snapshots directory — is still present. -/
theorem c4_destroy_cascade
    (env : DestroyEnv) (st : SysState) (n : String) (force : Bool) (p : Puck)
    (hget : getPuck st n = some p)
    (hok : (destroyPuck env st n force).1 = .ok ()) :
    (∀ q ∈ (destroyPuck env st n force).2.pucks, q.name ≠ n) ∧
    (∀ s ∈ (destroyPuck env st n force).2.snapshots, s.puckID ≠ p.id) ∧
    (∀ q ∈ st.fs, inTree p.volumeDir q = false →
      q ∈ (destroyPuck env st n force).2.fs) := by
  unfold destroyPuck at hok ⊢
  simp only [hget] at hok ⊢
  by_cases h1 : (!force && env.isRunning && !env.stopOk) = true
  · rw [if_pos h1] at hok
    exact absurd hok (by simp)
  · rw [if_neg h1] at hok ⊢
    by_cases h2 : (!env.removeOk && !force) = true
    · rw [if_pos h2] at hok
      exact absurd hok (by simp)
    · rw [if_neg h2]
      refine ⟨fun q hq => ?_, fun s hs => ?_, fun q hq hnt => ?_⟩
      · have hq' : q ∈ List.filter (fun q => q.name != n) st.pucks := hq
        rw [List.mem_filter] at hq'
        simpa using hq'.2
      · have hs' : s ∈ List.filter (fun s => s.puckID != p.id) st.snapshots := hs
        rw [List.mem_filter] at hs'
        simpa using hs'.2
      · show q ∈ (if (p.volumeDir != "") = true then removeTree st.fs p.volumeDir
          else st.fs)
        by_cases hvd : (p.volumeDir != "") = true
        · rw [if_pos hvd, removeTree, List.mem_filter]
          exact ⟨hq, by simp [hnt]⟩
        · rw [if_neg hvd]
          exact hq

/-- Witness for the amended C4 theorem at the concrete C4 instance. -/
theorem c4_destroy_cascade_witness :
    (∀ q ∈ (destroyPuck c4Env c4State "a" false).2.pucks, q.name ≠ "a") ∧
    (∀ s ∈ (destroyPuck c4Env c4State "a" false).2.snapshots, s.puckID ≠ c4Puck.id) ∧
    (∀ q ∈ c4State.fs, inTree c4Puck.volumeDir q = false →
      q ∈ (destroyPuck c4Env c4State "a" false).2.fs) :=
  c4_destroy_cascade c4Env c4State "a" false c4Puck (by decide) rfl

/-- Destroy environment in which `RemoveContainer` fails because the
container has already vanished (the runtime error is passed through). -/
def c6Env : DestroyEnv := { isRunning := false, stopOk := true, removeOk := false }

/-- State for C6: the row for `a` exists but no container does. -/
def c6State : SysState := ⟨[c4Puck], [], [], ["pucks/a/home"]⟩

/-- C6 (counterexample): with `force = false` and the container already
vanished, `RemoveContainer` fails and `Destroy` aborts with that failure,
leaving the puck row and the volume tree in place — it does not proceed
"regardless of the force flag". -/
theorem c6_counterexample :
    isErr (destroyPuck c6Env c6State "a" false).1 = true ∧
      (destroyPuck c6Env c6State "a" false).2 = c6State ∧
      getPuck (destroyPuck c6Env c6State "a" false).2 "a" = some c4Puck := by
  refine ⟨by decide, by decide, by decide⟩

/-- C6 (amended): when the puck row exists and `RemoveContainer` fails
(e.g. the container has already vanished), `Destroy` proceeds only when
`force` is set: with `force = true` it still deletes the volume tree and
the puck row and returns success, while with `force = false` it returns
the removal failure and leaves the state unchanged. -/
theorem c6_destroy_vanished
    (env : DestroyEnv) (st : SysState) (n : String) (p : Puck)
    (hget : getPuck st n = some p)
    (hrm : env.removeOk = false) :
    ((destroyPuck env st n true).1 = .ok () ∧
      (∀ q ∈ (destroyPuck env st n true).2.pucks, q.name ≠ n) ∧
      (destroyPuck env st n true).2.fs =
        (if p.volumeDir != "" then removeTree st.fs p.volumeDir else st.fs)) ∧
    (isErr (destroyPuck env st n false).1 = true ∧
      (destroyPuck env st n false).2 = st) := by
  constructor
  · unfold destroyPuck
    simp only [hget]
    rw [if_neg (by simp), if_neg (by simp)]
    refine ⟨rfl, fun q hq => ?_, rfl⟩
    have hq' : q ∈ List.filter (fun q => q.name != n) st.pucks := hq
    rw [List.mem_filter] at hq'
    simpa using hq'.2
  · unfold destroyPuck
    simp only [hget]
    by_cases h1 : (!false && env.isRunning && !env.stopOk) = true
    · rw [if_pos h1]
      exact ⟨rfl, rfl⟩
    · rw [if_neg h1, if_pos (by simp [hrm])]
      exact ⟨rfl, rfl⟩

/-- Witness for the amended C6 theorem at the concrete C6 instance. -/
theorem c6_destroy_vanished_witness :
    ((destroyPuck c6Env c6State "a" true).1 = .ok () ∧
      (∀ q ∈ (destroyPuck c6Env c6State "a" true).2.pucks, q.name ≠ "a") ∧
      (destroyPuck c6Env c6State "a" true).2.fs =
        (if c4Puck.volumeDir != "" then removeTree c6State.fs c4Puck.volumeDir
         else c6State.fs)) ∧
    (isErr (destroyPuck c6Env c6State "a" false).1 = true ∧
      (destroyPuck c6Env c6State "a" false).2 = c6State) :=
  c6_destroy_vanished c6Env c6State "a" c4Puck (by decide) (by decide)

/-! ## `Manager.DestroyAll` and the dispatcher action for destroying all -/

/-- The loop of `Manager.DestroyAll`: iterate the rows returned by
`ListPucks` (fetched once, before any deletion), destroy each by name,
and accumulate in order the destroyed names and, for each failure, the
pair of the failing name and its error message (the Go code records the
string `name: error`). -/
def destroyAllGo (denv : String → DestroyEnv) (force : Bool) :
    List Puck → SysState → List String × List (String × String) × SysState
  | [], st => ([], [], st)
  | p :: rest, st =>
    match destroyPuck (denv p.name) st p.name force with
    | (.ok _, st1) =>
      let r := destroyAllGo denv force rest st1
      (p.name :: r.1, r.2.1, r.2.2)
    | (.error msg, st1) =>
      let r := destroyAllGo denv force rest st1
      (r.1, (p.name, msg) :: r.2.1, r.2.2)

/-- `Manager.DestroyAll`. -/
def destroyAll (denv : String → DestroyEnv) (force : Bool) (st : SysState) :
    List String × List (String × String) × SysState :=
  destroyAllGo denv force st.pucks st

/-- A dispatcher response frame (`daemon.Response`); `data` is the JSON
list of names that `handleDestroyAll` marshals. -/
structure DaemonResponse where
  success : Bool
  data : List String
  error : String
deriving Repr, DecidableEq

/-- Space-separated join, as Go fmt `%v` renders the elements of a
string slice. -/
def joinSpace : List String → String
  | [] => ""
  | [x] => x
  | x :: y :: rest => x ++ " " ++ joinSpace (y :: rest)

/-- The aggregate error built by `DestroyAll`:
`fmt.Errorf` of the collected `name: error` strings rendered by `%v`. -/
def destroyAllErrString (errs : List (String × String)) : String :=
  "failed to destroy some pucks: [" ++
    joinSpace (errs.map (fun e => e.1 ++ ": " ++ e.2)) ++ "]"

/-- The dispatcher handler for destroying all pucks: on any failure it
answers `success=false` with the destroyed names as data and the
aggregate error; otherwise `success=true` with the destroyed names. -/
def handleDestroyAll (denv : String → DestroyEnv) (force : Bool) (st : SysState) :
    DaemonResponse × SysState :=
  let r := destroyAll denv force st
  if r.2.1.isEmpty then
    ({ success := true, data := r.1, error := "" }, r.2.2)
  else
    ({ success := false, data := r.1, error := destroyAllErrString r.2.1 }, r.2.2)

theorem joinSpace_mem {x : String} {l : List String} (h : x ∈ l) :
    ∃ a b, joinSpace l = a ++ x ++ b := by
  induction l with
  | nil => simp at h
  | cons y rest ih =>
    cases rest with
    | nil =>
      rcases List.mem_singleton.mp h with rfl
      exact ⟨"", "", by simp [joinSpace]⟩
    | cons z rest2 =>
      rcases List.mem_cons.mp h with rfl | htail
      · exact ⟨"", " " ++ joinSpace (z :: rest2),
          by simp [joinSpace, String.append_assoc]⟩
      · obtain ⟨a, b, hab⟩ := ih htail
        refine ⟨y ++ " " ++ a, b, ?_⟩
        simp [joinSpace, hab, String.append_assoc]

theorem destroyAllErrString_mentions {e : String × String}
    {errs : List (String × String)} (h : e ∈ errs) :
    ∃ a b, destroyAllErrString errs = a ++ e.1 ++ b := by
  have hmem : (e.1 ++ ": " ++ e.2) ∈ errs.map (fun e => e.1 ++ ": " ++ e.2) :=
    List.mem_map_of_mem _ h
  obtain ⟨a, b, hab⟩ := joinSpace_mem hmem
  refine ⟨"failed to destroy some pucks: [" ++ a, ": " ++ e.2 ++ (b ++ "]"), ?_⟩
  rw [destroyAllErrString, hab]
  simp [String.append_assoc]

theorem destroyAllGo_no_errs (denv : String → DestroyEnv) (force : Bool)
    (ps : List Puck) (st : SysState)
    (h : (destroyAllGo denv force ps st).2.1 = []) :
    (destroyAllGo denv force ps st).1 = ps.map (fun p => p.name) := by
  induction ps generalizing st with
  | nil => simp [destroyAllGo]
  | cons p rest ih =>
    rw [destroyAllGo] at h ⊢
    cases hd : destroyPuck (denv p.name) st p.name force with
    | mk res st1 =>
      cases res with
      | ok u => simp only [hd] at h ⊢; simpa using ih st1 h
      | error msg =>
        simp only [hd] at h
        exact absurd h (List.cons_ne_nil _ _)

theorem destroyAllGo_covers (denv : String → DestroyEnv) (force : Bool)
    (ps : List Puck) (st : SysState) :
    ∀ p ∈ ps, p.name ∈ (destroyAllGo denv force ps st).1 ∨
      p.name ∈ (destroyAllGo denv force ps st).2.1.map (fun e => e.1) := by
  induction ps generalizing st with
  | nil => simp
  | cons q rest ih =>
    intro p hp
    rw [destroyAllGo]
    cases hd : destroyPuck (denv q.name) st q.name force with
    | mk res st1 =>
      cases res with
      | ok u =>
        rcases List.mem_cons.mp hp with rfl | htail
        · exact Or.inl (List.mem_cons_self _ _)
        · rcases ih st1 p htail with hin | hin
          · exact Or.inl (List.mem_cons_of_mem _ hin)
          · exact Or.inr hin
      | error msg =>
        rcases List.mem_cons.mp hp with rfl | htail
        · exact Or.inr (by simp)
        · rcases ih st1 p htail with hin | hin
          · exact Or.inl hin
          · exact Or.inr (by simp [hin])

/-- C7: the response for the destroy-all action has `data` equal to
exactly the list of names that were successfully destroyed; when every
`Destroy` succeeds it has `success=true` and the data lists all puck
names; when at least one `Destroy` fails it has `success=false` and an
error string that mentions each failing name; and every puck appears
either among the destroyed names or among the failing ones. -/
theorem c7_destroy_all_response (denv : String → DestroyEnv) (force : Bool)
    (st : SysState) :
    (handleDestroyAll denv force st).1.data = (destroyAll denv force st).1 ∧
    ((destroyAll denv force st).2.1 = [] →
      (handleDestroyAll denv force st).1.success = true ∧
      (destroyAll denv force st).1 = st.pucks.map (fun p => p.name)) ∧
    ((destroyAll denv force st).2.1 ≠ [] →
      (handleDestroyAll denv force st).1.success = false ∧
      ∀ e ∈ (destroyAll denv force st).2.1,
        ∃ a b, (handleDestroyAll denv force st).1.error = a ++ e.1 ++ b) ∧
    (∀ p ∈ st.pucks, p.name ∈ (destroyAll denv force st).1 ∨
      p.name ∈ (destroyAll denv force st).2.1.map (fun e => e.1)) := by
  refine ⟨?_, ?_, ?_, ?_⟩
  · rw [handleDestroyAll]
    by_cases h : (destroyAll denv force st).2.1.isEmpty = true
    · rw [if_pos h]
    · rw [if_neg h]
  · intro h
    rw [handleDestroyAll, if_pos (by simp [h])]
    exact ⟨rfl, destroyAllGo_no_errs denv force st.pucks st h⟩
  · intro h
    rw [handleDestroyAll, if_neg (by simpa using h)]
    exact ⟨rfl, fun e he => destroyAllErrString_mentions he⟩
  · exact destroyAllGo_covers denv force st.pucks st

/-- Second puck for the C7 witness. -/
def c7PuckB : Puck :=
  { id := "c2", name := "b", image := "img", status := .running,
    volumeDir := "pucks/b", ports := [], hostPort := 9001, containerIP := "" }

/-- State with two pucks `a` and `b` for the C7 witness. -/
def c7State : SysState :=
  ⟨[c4Puck, c7PuckB], [], [⟨"c2", "b"⟩], ["pucks/a/home", "pucks/b/home"]⟩

/-- Per-puck environment for the C7 witness: removing the container of
`a` fails, everything about `b` succeeds. -/
def c7Denv : String → DestroyEnv :=
  fun n => if n == "a" then ⟨false, true, false⟩ else ⟨false, true, true⟩

/-- Witness for C7 at a concrete partial failure: destroying `a` fails,
destroying `b` succeeds. -/
theorem c7_destroy_all_response_witness :
    (handleDestroyAll c7Denv false c7State).1.data =
      (destroyAll c7Denv false c7State).1 ∧
    ((destroyAll c7Denv false c7State).2.1 ≠ [] →
      (handleDestroyAll c7Denv false c7State).1.success = false ∧
      ∀ e ∈ (destroyAll c7Denv false c7State).2.1,
        ∃ a b, (handleDestroyAll c7Denv false c7State).1.error = a ++ e.1 ++ b) :=
  ⟨(c7_destroy_all_response c7Denv false c7State).1,
    (c7_destroy_all_response c7Denv false c7State).2.2.1⟩

/-! ## `Manager.CreateSnapshot` -/

/-- `DB.GetSnapshot`: look up a snapshot row by
`WHERE puck_id = ? AND name = ?`. -/
def getSnapshotRow (st : SysState) (puckID snapName : String) : Option SnapshotRow :=
  st.snapshots.find? (fun s => s.puckID == puckID && s.name == snapName)

/-- Outcomes of the external calls `Manager.CreateSnapshot` performs:
`IsRunning` (`none` is an error), `os.MkdirAll` of the snapshots
directory, podman `Checkpoint` (which on success writes the export
archive), `os.Stat` of the archive together with the size it reports,
and the `CreateSnapshot` insert. -/
structure SnapEnv where
  isRunning : Option Bool
  mkdirOk : Bool
  checkpointOk : Bool
  statOk : Bool
  statSize : Int
  dbOk : Bool
deriving Repr, DecidableEq

/-- `Manager.CreateSnapshot`: require a running container, create the
snapshots directory, checkpoint to `<dir>/<name>.tar.gz`, stat the file,
set status to checkpointed unless leaving the puck running (the update
error is discarded by the source), and insert the row, removing the
archive if the insert fails. On a stat failure the source returns the
error without removing anything. -/
def createSnapshot (env : SnapEnv) (st : SysState) (puckName snapName : String)
    (leaveRunning : Bool) : Except String SnapshotRow × SysState :=
  match getPuck st puckName with
  | none => (.error "puck not found", st)
  | some p =>
    match env.isRunning with
    | none => (.error "checking container status", st)
    | some false => (.error "puck must be running to create snapshot", st)
    | some true =>
      let snapDir := "snapshots/" ++ puckName
      if !env.mkdirOk then (.error "creating snapshot directory", st)
      else
        let fs1 := snapDir :: st.fs
        let exportPath := snapDir ++ "/" ++ snapName ++ ".tar.gz"
        if !env.checkpointOk then
          (.error "checkpointing container", { st with fs := fs1 })
        else
          let fs2 := exportPath :: fs1
          if !env.statOk then
            (.error "getting snapshot size", { st with fs := fs2 })
          else
            let stA : SysState := { st with fs := fs2 }
            let stB :=
              if leaveRunning then stA
              else setPuckStatus stA puckName Status.checkpointed
            let snap : SnapshotRow :=
              { id := "uuid-" ++ puckName ++ "-" ++ snapName, puckID := p.id,
                puckName := p.name, name := snapName, path := exportPath,
                sizeBytes := env.statSize }
            if env.dbOk && stB.snapshots.all
                (fun s => !(s.puckID == p.id && s.name == snapName)) then
              (.ok snap, { stB with snapshots := snap :: stB.snapshots })
            else
              (.error "saving snapshot",
                { stB with fs := stB.fs.filter (fun q => q != exportPath) })

/-- State for the C5 instances: one puck `a`, no snapshots. -/
def c5State : SysState := ⟨[c4Puck], [], [⟨"c1", "a"⟩], ["pucks/a/home"]⟩

/-- Environment for C5: the container runs, mkdir and checkpoint succeed,
but the stat of the archive fails. -/
def c5Env : SnapEnv :=
  { isRunning := some true, mkdirOk := true, checkpointOk := true,
    statOk := false, statSize := 0, dbOk := true }

/-- C5 (counterexample): when the checkpoint succeeds but the stat of the
archive fails, `CreateSnapshot` returns a failure and inserts no row and
leaves the status alone — but the archive file written by the checkpoint
is NOT removed from disk, contradicting the claim. -/
theorem c5_counterexample :
    isErr (createSnapshot c5Env c5State "a" "snap1" false).1 = true ∧
      "snapshots/a/snap1.tar.gz" ∈ (createSnapshot c5Env c5State "a" "snap1" false).2.fs ∧
      (createSnapshot c5Env c5State "a" "snap1" false).2.pucks = c5State.pucks ∧
      (createSnapshot c5Env c5State "a" "snap1" false).2.snapshots = [] := by
  refine ⟨rfl, by decide, by decide, rfl⟩

/-- C5 (amended): when the checkpoint succeeds and the subsequent stat of
the archive fails, `CreateSnapshot` returns the failure, the puck rows
(in particular the stored status) are unchanged, no snapshot row is
inserted — and the archive file is left on disk rather than removed. -/
theorem c5_snapshot_stat_failure
    (env : SnapEnv) (st : SysState) (puckName snapName : String)
    (leaveRunning : Bool) (p : Puck)
    (hget : getPuck st puckName = some p)
    (hrun : env.isRunning = some true)
    (hmk : env.mkdirOk = true)
    (hck : env.checkpointOk = true)
    (hstat : env.statOk = false) :
    (createSnapshot env st puckName snapName leaveRunning).1 =
      .error "getting snapshot size" ∧
    (createSnapshot env st puckName snapName leaveRunning).2.pucks = st.pucks ∧
    (createSnapshot env st puckName snapName leaveRunning).2.snapshots = st.snapshots ∧
    ("snapshots/" ++ puckName ++ "/" ++ snapName ++ ".tar.gz") ∈
      (createSnapshot env st puckName snapName leaveRunning).2.fs := by
  unfold createSnapshot
  simp only [hget, hrun]
  rw [if_neg (by simp [hmk]), if_neg (by simp [hck]), if_pos (by simp [hstat])]
  exact ⟨rfl, rfl, rfl, List.mem_cons_self _ _⟩

/-- Witness for the amended C5 theorem at the concrete C5 instance. -/
theorem c5_snapshot_stat_failure_witness :
    (createSnapshot c5Env c5State "a" "snap1" false).1 =
      .error "getting snapshot size" ∧
    (createSnapshot c5Env c5State "a" "snap1" false).2.pucks = c5State.pucks ∧
    (createSnapshot c5Env c5State "a" "snap1" false).2.snapshots = c5State.snapshots ∧
    ("snapshots/" ++ "a" ++ "/" ++ "snap1" ++ ".tar.gz") ∈
      (createSnapshot c5Env c5State "a" "snap1" false).2.fs :=
  c5_snapshot_stat_failure c5Env c5State "a" "snap1" false c4Puck
    (by decide) rfl rfl rfl rfl

/-! ## `Manager.RestoreSnapshot` -/

/-- Outcomes of the external calls `Manager.RestoreSnapshot` performs:
`IsRunning` (its error is discarded by the source, so an error reads as
`false`), `StopContainer`, podman `Restore` (`none` is failure, `some`
is the new opaque container id), and `GetContainerIP`. -/
structure RestoreEnv where
  isRunning : Bool
  stopOk : Bool
  restoreResult : Option String
  ip : Option String
deriving Repr, DecidableEq

/-- `Manager.RestoreSnapshot`: look up the puck, fetch the snapshot by
`(puck_id, name)` using the CURRENT runtime id, require the archive on
disk, stop a running container, force-remove the old container (absence
tolerated), restore to a new container id, and rewrite the row with the
new id and status running (plus a best-effort IP refresh).

The model lets the raw `UPDATE pucks SET id = ...` succeed; under real
SQLite semantics with enforced foreign keys the statement would already
fail whenever a snapshot row references the old id, since the schema has
no ON UPDATE action. -/
def restoreSnapshot (env : RestoreEnv) (st : SysState) (puckName snapName : String) :
    Except String Unit × SysState :=
  match getPuck st puckName with
  | none => (.error "puck not found", st)
  | some p =>
    match getSnapshotRow st p.id snapName with
    | none => (.error "snapshot not found for puck", st)
    | some snap =>
      if !(st.fs.contains snap.path) then (.error "snapshot file not found", st)
      else if env.isRunning && !env.stopOk then (.error "stopping container", st)
      else
        let st1 : SysState :=
          { st with containers := st.containers.filter (fun c => c.id != p.id) }
        match env.restoreResult with
        | none => (.error "restoring checkpoint", st1)
        | some newID =>
          let st2 : SysState :=
            { st1 with
                containers := ⟨newID, puckName⟩ :: st1.containers,
                pucks := st1.pucks.map (fun q =>
                  if q.name == puckName then
                    { q with id := newID, status := Status.running }
                  else q) }
          let st3 := match env.ip with
            | some ip =>
              { st2 with pucks := st2.pucks.map (fun q =>
                  if q.name == puckName then { q with containerIP := ip } else q) }
            | none => st2
          (.ok (), st3)

/-- The puck used by the C3 run, checkpointed with runtime id `c1`. -/
def c3Puck : Puck :=
  { id := "c1", name := "myapp", image := "img", status := .checkpointed,
    volumeDir := "pucks/myapp", ports := [], hostPort := 9000, containerIP := "" }

/-- The snapshot of `c3Puck`, whose row references runtime id `c1`. -/
def c3Snap : SnapshotRow :=
  { id := "s1", puckID := "c1", puckName := "myapp", name := "snap1",
    path := "snapshots/myapp/snap1.tar.gz", sizeBytes := 5 }

/-- Initial state for the C3 run. -/
def c3State : SysState :=
  ⟨[c3Puck], [c3Snap], [⟨"c1", "myapp"⟩], ["snapshots/myapp/snap1.tar.gz"]⟩

/-- Environment of the first restore: `Restore` yields the new id `c2`. -/
def c3Env1 : RestoreEnv :=
  { isRunning := false, stopOk := true, restoreResult := some "c2", ip := none }

/-- Environment of the second restore: `Restore` would yield `c3`. -/
def c3Env2 : RestoreEnv :=
  { isRunning := false, stopOk := true, restoreResult := some "c3", ip := none }

/-- C3: the first `RestoreSnapshot` succeeds and rewrites the puck row to
the new runtime id `c2` with status running, exactly as the claim says —
but the second `RestoreSnapshot` of the same snapshot FAILS with a
snapshot-not-found error, because `GetSnapshot` is keyed on the current
(rewritten) runtime id while the snapshot row still references the
pre-restore id `c1`. The claim that the second restore also succeeds is
false on this code. -/
theorem c3_restore_twice :
    (restoreSnapshot c3Env1 c3State "myapp" "snap1").1 = .ok () ∧
      getPuck (restoreSnapshot c3Env1 c3State "myapp" "snap1").2 "myapp" =
        some { c3Puck with id := "c2", status := Status.running } ∧
      (restoreSnapshot c3Env2
          (restoreSnapshot c3Env1 c3State "myapp" "snap1").2 "myapp" "snap1").1 =
        .error "snapshot not found for puck" := by
  refine ⟨rfl, by decide, rfl⟩

/-! ## Store schema migrations (`DB.migrate`) -/

/-- The columns of the `pucks` table as created by the first migration
statement. -/
def puckCols : List String :=
  ["id", "name", "image", "status", "volume_dir", "ports", "host_port",
   "container_ip", "tailscale_ip", "funnel_url", "created_at", "updated_at"]

/-- The columns of the `snapshots` table as created by the fourth
migration statement. -/
def snapshotCols : List String :=
  ["id", "puck_id", "puck_name", "name", "path", "size_bytes", "created_at"]

/-- The projection of the SQLite schema the migration statements touch:
the column lists of the `pucks`, `sprites` and `snapshots` tables (`none`
when the table is absent) and the set of index names. -/
structure Schema where
  pucks : Option (List String)
  sprites : Option (List String)
  snapshots : Option (List String)
  indexes : List String
deriving Repr, DecidableEq

/-- The SQLite error categories the migration loop distinguishes by
substring matching: already-exists, no-such-table, duplicate-column,
no-such-column are ignored; anything else aborts the migration. -/
inductive MigErr where
  | tableExists
  | noSuchTable
  | duplicateColumn
  | noSuchColumn
  | other
deriving Repr, DecidableEq

/-- Which error categories the loop in `DB.migrate` swallows. -/
def ignorableErr : MigErr → Bool
  | .other => false
  | _ => true

/-- `CREATE TABLE IF NOT EXISTS pucks (...)`. -/
def stmtCreatePucks (s : Schema) : Except MigErr Schema :=
  match s.pucks with
  | some _ => .ok s
  | none => .ok { s with pucks := some puckCols }

/-- `ALTER TABLE sprites RENAME TO pucks`: fails with no-such-table when
`sprites` is absent and with already-another-table when `pucks` exists. -/
def stmtRenameSprites (s : Schema) : Except MigErr Schema :=
  match s.sprites with
  | none => .error .noSuchTable
  | some cols =>
    match s.pucks with
    | some _ => .error .tableExists
    | none => .ok { s with pucks := some cols, sprites := none }

/-- `ALTER TABLE pucks ADD COLUMN host_port INTEGER DEFAULT 0`. -/
def stmtAddHostPort (s : Schema) : Except MigErr Schema :=
  match s.pucks with
  | none => .error .noSuchTable
  | some cols =>
    if "host_port" ∈ cols then .error .duplicateColumn
    else .ok { s with pucks := some (cols ++ ["host_port"]) }

/-- `CREATE TABLE IF NOT EXISTS snapshots (...)`. -/
def stmtCreateSnapshots (s : Schema) : Except MigErr Schema :=
  match s.snapshots with
  | some _ => .ok s
  | none => .ok { s with snapshots := some snapshotCols }

/-- `ALTER TABLE snapshots RENAME COLUMN a TO b`. -/
def stmtRenameSnapCol (a b : String) (s : Schema) : Except MigErr Schema :=
  match s.snapshots with
  | none => .error .noSuchTable
  | some cols =>
    if a ∈ cols then
      if b ∈ cols then .error .duplicateColumn
      else
        .ok { s with
          snapshots := some (cols.map (fun c => if c == a then b else c)) }
    else .error .noSuchColumn

/-- `CREATE INDEX IF NOT EXISTS idx ON ...`. -/
def stmtCreateIndex (idx : String) (s : Schema) : Except MigErr Schema :=
  if idx ∈ s.indexes then .ok s
  else .ok { s with indexes := s.indexes ++ [idx] }

/-- One iteration of the migration loop of `DB.migrate`: run the
statement; on an error of an ignored category keep the current schema and
continue, otherwise abort. -/
def applyStmt (s : Schema) (stmt : Schema → Except MigErr Schema) :
    Except MigErr Schema :=
  match stmt s with
  | .ok t => .ok t
  | .error e => if ignorableErr e then .ok s else .error e

/-- `DB.migrate`: the nine migration statements in source order. -/
def migrate (s0 : Schema) : Except MigErr Schema := do
  let s1 ← applyStmt s0 stmtCreatePucks
  let s2 ← applyStmt s1 stmtRenameSprites
  let s3 ← applyStmt s2 stmtAddHostPort
  let s4 ← applyStmt s3 stmtCreateSnapshots
  let s5 ← applyStmt s4 (stmtRenameSnapCol "sprite_id" "puck_id")
  let s6 ← applyStmt s5 (stmtRenameSnapCol "sprite_name" "puck_name")
  let s7 ← applyStmt s6 (stmtCreateIndex "idx_pucks_name")
  let s8 ← applyStmt s7 (stmtCreateIndex "idx_pucks_status")
  applyStmt s8 (stmtCreateIndex "idx_snapshots_puck")

/-- Effect of statement 1 with its ignored errors folded in. -/
def runCreatePucks (s : Schema) : Schema :=
  match s.pucks with
  | some _ => s
  | none => { s with pucks := some puckCols }

/-- Effect of statement 2 with its ignored errors folded in. -/
def runRenameSprites (s : Schema) : Schema :=
  match s.sprites, s.pucks with
  | some cols, none => { s with pucks := some cols, sprites := none }
  | _, _ => s

/-- Effect of statement 3 with its ignored errors folded in. -/
def runAddHostPort (s : Schema) : Schema :=
  match s.pucks with
  | none => s
  | some cols =>
    if "host_port" ∈ cols then s
    else { s with pucks := some (cols ++ ["host_port"]) }

/-- Effect of statement 4 with its ignored errors folded in. -/
def runCreateSnapshots (s : Schema) : Schema :=
  match s.snapshots with
  | some _ => s
  | none => { s with snapshots := some snapshotCols }

/-- Effect of a rename-column statement with its ignored errors folded
in. -/
def runRenameSnapCol (a b : String) (s : Schema) : Schema :=
  match s.snapshots with
  | none => s
  | some cols =>
    if a ∈ cols then
      if b ∈ cols then s
      else
        { s with
          snapshots := some (cols.map (fun c => if c == a then b else c)) }
    else s

/-- Effect of a create-index statement. -/
def runCreateIndex (idx : String) (s : Schema) : Schema :=
  if idx ∈ s.indexes then s else { s with indexes := s.indexes ++ [idx] }

theorem applyStmt_createPucks (s : Schema) :
    applyStmt s stmtCreatePucks = .ok (runCreatePucks s) := by
  rcases hs : s.pucks with _ | cols <;>
    simp [applyStmt, stmtCreatePucks, runCreatePucks, hs]

theorem applyStmt_renameSprites (s : Schema) :
    applyStmt s stmtRenameSprites = .ok (runRenameSprites s) := by
  rcases hs : s.sprites with _ | cols <;> rcases hp : s.pucks with _ | pcols <;>
    simp [applyStmt, stmtRenameSprites, runRenameSprites, hs, hp, ignorableErr]

theorem applyStmt_addHostPort (s : Schema) :
    applyStmt s stmtAddHostPort = .ok (runAddHostPort s) := by
  rcases hp : s.pucks with _ | cols
  · simp [applyStmt, stmtAddHostPort, runAddHostPort, hp, ignorableErr]
  · by_cases hm : "host_port" ∈ cols <;>
      simp [applyStmt, stmtAddHostPort, runAddHostPort, hp, hm, ignorableErr]

theorem applyStmt_createSnapshots (s : Schema) :
    applyStmt s stmtCreateSnapshots = .ok (runCreateSnapshots s) := by
  rcases hs : s.snapshots with _ | cols <;>
    simp [applyStmt, stmtCreateSnapshots, runCreateSnapshots, hs]

theorem applyStmt_renameSnapCol (a b : String) (s : Schema) :
    applyStmt s (stmtRenameSnapCol a b) = .ok (runRenameSnapCol a b s) := by
  rcases hs : s.snapshots with _ | cols
  · simp [applyStmt, stmtRenameSnapCol, runRenameSnapCol, hs, ignorableErr]
  · by_cases ha : a ∈ cols
    · by_cases hb : b ∈ cols <;>
        simp [applyStmt, stmtRenameSnapCol, runRenameSnapCol, hs, ha, hb, ignorableErr]
    · simp [applyStmt, stmtRenameSnapCol, runRenameSnapCol, hs, ha, ignorableErr]

theorem applyStmt_createIndex (idx : String) (s : Schema) :
    applyStmt s (stmtCreateIndex idx) = .ok (runCreateIndex idx s) := by
  by_cases h : idx ∈ s.indexes <;>
    simp [applyStmt, stmtCreateIndex, runCreateIndex, h]

/-- The composite effect of a full migration run. -/
def migrateTotal (s : Schema) : Schema :=
  runCreateIndex "idx_snapshots_puck"
    (runCreateIndex "idx_pucks_status"
      (runCreateIndex "idx_pucks_name"
        (runRenameSnapCol "sprite_name" "puck_name"
          (runRenameSnapCol "sprite_id" "puck_id"
            (runCreateSnapshots
              (runAddHostPort
                (runRenameSprites
                  (runCreatePucks s))))))))

theorem exceptOkBind {α β : Type} (a : α) (f : α → Except MigErr β) :
    (Except.ok a >>= f) = f a := rfl

theorem migrate_eq_total (s : Schema) : migrate s = .ok (migrateTotal s) := by
  rw [migrate, migrateTotal]
  simp only [applyStmt_createPucks, exceptOkBind, applyStmt_renameSprites,
    applyStmt_addHostPort, applyStmt_createSnapshots, applyStmt_renameSnapCol,
    applyStmt_createIndex]

/-- A schema on which every migration statement is a no-op: the `pucks`
table exists with a `host_port` column, the `snapshots` table exists with
its sprite-era columns already renamed (or blocked by an existing target
column), and all three indexes exist. -/
def Migrated (s : Schema) : Prop :=
  (∃ cols, s.pucks = some cols ∧ "host_port" ∈ cols) ∧
  (∃ cols, s.snapshots = some cols ∧
    ("sprite_id" ∉ cols ∨ "puck_id" ∈ cols) ∧
    ("sprite_name" ∉ cols ∨ "puck_name" ∈ cols)) ∧
  "idx_pucks_name" ∈ s.indexes ∧ "idx_pucks_status" ∈ s.indexes ∧
  "idx_snapshots_puck" ∈ s.indexes

theorem runCreatePucks_of_some {s : Schema} (h : ∃ c, s.pucks = some c) :
    runCreatePucks s = s := by
  obtain ⟨c, hc⟩ := h
  simp [runCreatePucks, hc]

theorem runRenameSprites_of_pucks_some {s : Schema} (h : ∃ c, s.pucks = some c) :
    runRenameSprites s = s := by
  obtain ⟨c, hc⟩ := h
  rcases hs : s.sprites with _ | scols <;> simp [runRenameSprites, hc, hs]

theorem runAddHostPort_of_mem {s : Schema}
    (h : ∃ c, s.pucks = some c ∧ "host_port" ∈ c) : runAddHostPort s = s := by
  obtain ⟨c, hc, hm⟩ := h
  simp [runAddHostPort, hc, hm]

theorem runCreateSnapshots_of_some {s : Schema} (h : ∃ c, s.snapshots = some c) :
    runCreateSnapshots s = s := by
  obtain ⟨c, hc⟩ := h
  simp [runCreateSnapshots, hc]

theorem runRenameSnapCol_of_done {a b : String} {s : Schema}
    (h : ∃ c, s.snapshots = some c ∧ (a ∉ c ∨ b ∈ c)) :
    runRenameSnapCol a b s = s := by
  obtain ⟨c, hc, hd⟩ := h
  rcases hd with hna | hb
  · simp [runRenameSnapCol, hc, hna]
  · by_cases ha : a ∈ c <;> simp [runRenameSnapCol, hc, ha, hb]

theorem runCreateIndex_of_mem {idx : String} {s : Schema}
    (h : idx ∈ s.indexes) : runCreateIndex idx s = s := by
  simp [runCreateIndex, h]

theorem migrated_fixed {s : Schema} (h : Migrated s) : migrateTotal s = s := by
  obtain ⟨⟨c, hc, hm⟩, ⟨d, hd, h5, h6⟩, h7, h8, h9⟩ := h
  rw [migrateTotal, runCreatePucks_of_some ⟨c, hc⟩,
    runRenameSprites_of_pucks_some ⟨c, hc⟩, runAddHostPort_of_mem ⟨c, hc, hm⟩,
    runCreateSnapshots_of_some ⟨d, hd⟩, runRenameSnapCol_of_done ⟨d, hd, h5⟩,
    runRenameSnapCol_of_done ⟨d, hd, h6⟩, runCreateIndex_of_mem h7,
    runCreateIndex_of_mem h8, runCreateIndex_of_mem h9]

theorem pucks_runCreatePucks (s : Schema) :
    ∃ c, (runCreatePucks s).pucks = some c := by
  rcases hp : s.pucks with _ | c
  · exact ⟨puckCols, by simp [runCreatePucks, hp]⟩
  · exact ⟨c, by simp [runCreatePucks, hp]⟩

theorem runAddHostPort_post {s : Schema} (h : ∃ c, s.pucks = some c) :
    ∃ c, (runAddHostPort s).pucks = some c ∧ "host_port" ∈ c := by
  obtain ⟨c, hc⟩ := h
  by_cases hm : "host_port" ∈ c
  · exact ⟨c, by simp [runAddHostPort, hc, hm], hm⟩
  · exact ⟨c ++ ["host_port"], by simp [runAddHostPort, hc, hm], by simp⟩

theorem runCreateSnapshots_pucks (s : Schema) :
    (runCreateSnapshots s).pucks = s.pucks := by
  rcases hs : s.snapshots with _ | c <;> simp [runCreateSnapshots, hs]

theorem snapshots_runCreateSnapshots (s : Schema) :
    ∃ c, (runCreateSnapshots s).snapshots = some c := by
  rcases hs : s.snapshots with _ | c
  · exact ⟨snapshotCols, by simp [runCreateSnapshots, hs]⟩
  · exact ⟨c, by simp [runCreateSnapshots, hs]⟩

theorem runRenameSnapCol_pucks (a b : String) (s : Schema) :
    (runRenameSnapCol a b s).pucks = s.pucks := by
  rcases hs : s.snapshots with _ | c
  · simp [runRenameSnapCol, hs]
  · by_cases ha : a ∈ c
    · by_cases hb : b ∈ c <;> simp [runRenameSnapCol, hs, ha, hb]
    · simp [runRenameSnapCol, hs, ha]

theorem runCreateIndex_pucks (idx : String) (s : Schema) :
    (runCreateIndex idx s).pucks = s.pucks := by
  by_cases h : idx ∈ s.indexes <;> simp [runCreateIndex, h]

theorem runCreateIndex_snapshots (idx : String) (s : Schema) :
    (runCreateIndex idx s).snapshots = s.snapshots := by
  by_cases h : idx ∈ s.indexes <;> simp [runCreateIndex, h]

theorem runCreateIndex_mem_self (idx : String) (s : Schema) :
    idx ∈ (runCreateIndex idx s).indexes := by
  by_cases h : idx ∈ s.indexes <;> simp [runCreateIndex, h]

theorem runCreateIndex_mem_of_mem {j : String} (idx : String) {s : Schema}
    (h : j ∈ s.indexes) : j ∈ (runCreateIndex idx s).indexes := by
  by_cases hi : idx ∈ s.indexes <;> simp [runCreateIndex, hi, h]

theorem mem_map_replace_of_mem {x a b : String} {cols : List String}
    (hx : x ∈ cols) (hxa : x ≠ a) :
    x ∈ cols.map (fun c => if c == a then b else c) := by
  refine List.mem_map.mpr ⟨x, hx, ?_⟩
  rw [if_neg (by simp [hxa])]

theorem not_mem_map_replace_of {x a b : String} {cols : List String}
    (hx : x ∉ cols) (hxb : x ≠ b) :
    x ∉ cols.map (fun c => if c == a then b else c) := by
  intro hmem
  rw [List.mem_map] at hmem
  obtain ⟨c, hc, hgc⟩ := hmem
  by_cases hca : (c == a) = true
  · rw [if_pos hca] at hgc
    exact hxb hgc.symm
  · rw [if_neg hca] at hgc
    exact hx (hgc ▸ hc)

theorem not_mem_map_replace_self {a b : String} {cols : List String}
    (hba : b ≠ a) :
    a ∉ cols.map (fun c => if c == a then b else c) := by
  intro hmem
  rw [List.mem_map] at hmem
  obtain ⟨c, hc, hgc⟩ := hmem
  by_cases hca : (c == a) = true
  · rw [if_pos hca] at hgc
    exact hba hgc
  · rw [if_neg hca] at hgc
    rw [hgc] at hca
    simp at hca

theorem runRenameSnapCol_post {a b : String} (hba : b ≠ a) {s : Schema}
    (h : ∃ c, s.snapshots = some c) :
    ∃ c, (runRenameSnapCol a b s).snapshots = some c ∧ (a ∉ c ∨ b ∈ c) := by
  obtain ⟨c, hc⟩ := h
  by_cases ha : a ∈ c
  · by_cases hb : b ∈ c
    · exact ⟨c, by simp [runRenameSnapCol, hc, ha, hb], Or.inr hb⟩
    · refine ⟨c.map (fun x => if x == a then b else x),
        by simp [runRenameSnapCol, hc, ha, hb], Or.inl ?_⟩
      exact not_mem_map_replace_self hba
  · exact ⟨c, by simp [runRenameSnapCol, hc, ha], Or.inl ha⟩

theorem runRenameSnapCol_preserve {a b x y : String} {s : Schema}
    {d d' : List String}
    (hd : s.snapshots = some d)
    (hd' : (runRenameSnapCol a b s).snapshots = some d')
    (hxy : x ∉ d ∨ y ∈ d) (hxb : x ≠ b) (hya : y ≠ a) :
    x ∉ d' ∨ y ∈ d' := by
  simp only [runRenameSnapCol, hd] at hd'
  by_cases ha : a ∈ d
  · by_cases hb : b ∈ d
    · rw [if_pos ha, if_pos hb, hd] at hd'
      obtain rfl : d = d' := Option.some_injective _ hd'
      exact hxy
    · rw [if_pos ha, if_neg hb] at hd'
      have hmap := Option.some_injective _ hd'
      rcases hxy with hx | hy
      · exact Or.inl (hmap ▸ not_mem_map_replace_of hx hxb)
      · exact Or.inr (hmap ▸ mem_map_replace_of_mem hy hya)
  · rw [if_neg ha, hd] at hd'
    obtain rfl : d = d' := Option.some_injective _ hd'
    exact hxy

theorem migrateTotal_migrated (s : Schema) : Migrated (migrateTotal s) := by
  have h1 : ∃ c, (runCreatePucks s).pucks = some c := pucks_runCreatePucks s
  have e2 : runRenameSprites (runCreatePucks s) = runCreatePucks s :=
    runRenameSprites_of_pucks_some h1
  rw [migrateTotal, e2]
  obtain ⟨c3, hc3, hm3⟩ := runAddHostPort_post h1
  obtain ⟨d4, hd4⟩ :=
    snapshots_runCreateSnapshots (runAddHostPort (runCreatePucks s))
  obtain ⟨d5, hd5, hdj5⟩ :=
    runRenameSnapCol_post (a := "sprite_id") (b := "puck_id") (by decide) ⟨d4, hd4⟩
  obtain ⟨d6, hd6, hdj6⟩ :=
    runRenameSnapCol_post (a := "sprite_name") (b := "puck_name") (by decide)
      ⟨d5, hd5⟩
  have hdj6a : "sprite_id" ∉ d6 ∨ "puck_id" ∈ d6 :=
    runRenameSnapCol_preserve hd5 hd6 hdj5 (by decide) (by decide)
  refine ⟨⟨c3, ?_, hm3⟩, ⟨d6, ?_, hdj6a, hdj6⟩, ?_, ?_, ?_⟩
  · rw [runCreateIndex_pucks, runCreateIndex_pucks, runCreateIndex_pucks,
      runRenameSnapCol_pucks, runRenameSnapCol_pucks, runCreateSnapshots_pucks]
    exact hc3
  · rw [runCreateIndex_snapshots, runCreateIndex_snapshots,
      runCreateIndex_snapshots]
    exact hd6
  · exact runCreateIndex_mem_of_mem _
      (runCreateIndex_mem_of_mem _ (runCreateIndex_mem_self _ _))
  · exact runCreateIndex_mem_of_mem _ (runCreateIndex_mem_self _ _)
  · exact runCreateIndex_mem_self _ _

/-- C8: the startup migration never hard-fails (each error its statements
can raise on any schema falls in the ignored missing-table,
missing-column, duplicate-column, already-exists categories), and running
it a second time on the schema an earlier run produced succeeds and
changes nothing — so opening the store against a fresh directory and
against a previously-opened one both yield a working, stable schema. -/
theorem c8_migration_idempotent (s : Schema) :
    (∃ t, migrate s = Except.ok t) ∧
    (∀ t, migrate s = Except.ok t → migrate t = Except.ok t) := by
  refine ⟨⟨migrateTotal s, migrate_eq_total s⟩, ?_⟩
  intro t ht
  rw [migrate_eq_total s] at ht
  have hts : t = migrateTotal s := by
    injection ht with h
    exact h.symm
  subst hts
  rw [migrate_eq_total, migrated_fixed (migrateTotal_migrated s)]

/-- The empty schema of a freshly created database file. -/
def freshSchema : Schema := ⟨none, none, none, []⟩

/-- The schema produced by migrating the fresh database. -/
def migratedFresh : Schema :=
  ⟨some puckCols, none, some snapshotCols,
    ["idx_pucks_name", "idx_pucks_status", "idx_snapshots_puck"]⟩

/-- Witness for C8: migrating a fresh schema yields `migratedFresh`, and
a second migration run returns it unchanged. -/
theorem c8_migration_idempotent_witness :
    migrate freshSchema = Except.ok migratedFresh ∧
      migrate migratedFresh = Except.ok migratedFresh :=
  ⟨rfl, (c8_migration_idempotent freshSchema).2 migratedFresh rfl⟩

/-! ## HTTP router (`network.Router`) -/

/-- An entry of the routing table (`network.routeInfo`). -/
structure RouteInfo where
  ip : String
  port : Int
deriving Repr, DecidableEq

/-- The router state: the in-memory table keyed by puck name and the
running flag. The table of the Go map is modelled as an association list
with at most one entry per key, insertion replacing the old entry. -/
structure RouterState where
  routes : List (String × RouteInfo)
  running : Bool
deriving Repr, DecidableEq

/-- `Router.reload`: a no-op returning no error when the router is not
running; otherwise its result is that of `caddy.Load` on the rebuilt
config, abstracted by the environment flag `caddyOk` (the config itself
is always well-formed). -/
def reloadErr (caddyOk : Bool) (r : RouterState) : Option String :=
  if r.running && !caddyOk then some "reloading caddy config" else none

/-- `Router.AddRoute`: set the table entry for the name, then reload. -/
def addRoute (caddyOk : Bool) (r : RouterState) (n ip : String) (port : Int) :
    Option String × RouterState :=
  let r' : RouterState :=
    { r with routes := (n, ⟨ip, port⟩) :: r.routes.filter (fun e => e.1 != n) }
  (reloadErr caddyOk r', r')

/-- `Router.RemoveRoute`: delete the table entry for the name, then
reload. -/
def removeRoute (caddyOk : Bool) (r : RouterState) (n : String) :
    Option String × RouterState :=
  let r' : RouterState := { r with routes := r.routes.filter (fun e => e.1 != n) }
  (reloadErr caddyOk r', r')

theorem filter_idem {α : Type} (P : α → Bool) (l : List α) :
    (l.filter P).filter P = l.filter P :=
  List.filter_eq_self.mpr (fun _ ha => List.of_mem_filter ha)

/-- C9: `AddRoute` applied twice with the same arguments yields the same
routing table as applying it once, `RemoveRoute` applied twice yields the
same table as applying it once, and `RemoveRoute` of a name with no route
leaves the table unchanged and — as long as the router is not running or
the external caddy reload succeeds — returns no error. -/
theorem c9_routes_idempotent (caddyOk : Bool) (r : RouterState)
    (n ip : String) (port : Int) :
    (addRoute caddyOk (addRoute caddyOk r n ip port).2 n ip port).2.routes =
      (addRoute caddyOk r n ip port).2.routes ∧
    (removeRoute caddyOk (removeRoute caddyOk r n).2 n).2.routes =
      (removeRoute caddyOk r n).2.routes ∧
    ((∀ e ∈ r.routes, e.1 ≠ n) →
      (removeRoute caddyOk r n).2.routes = r.routes ∧
      (r.running = false ∨ caddyOk = true →
        (removeRoute caddyOk r n).1 = none)) := by
  refine ⟨?_, ?_, ?_⟩
  · show (n, RouteInfo.mk ip port) ::
        ((n, RouteInfo.mk ip port) ::
          r.routes.filter (fun e => e.1 != n)).filter (fun e => e.1 != n) =
      (n, RouteInfo.mk ip port) :: r.routes.filter (fun e => e.1 != n)
    rw [List.filter_cons_of_neg (by simp), filter_idem]
  · show (r.routes.filter (fun e => e.1 != n)).filter (fun e => e.1 != n) =
      r.routes.filter (fun e => e.1 != n)
    exact filter_idem _ _
  · intro h
    constructor
    · show r.routes.filter (fun e => e.1 != n) = r.routes
      exact List.filter_eq_self.mpr (fun e he => by simpa using h e he)
    · intro hok
      show reloadErr caddyOk _ = none
      rcases hok with hrun | hcd
      · simp [reloadErr, hrun]
      · simp [reloadErr, hcd]

/-- A concrete router for the C9 witness: one route, not running. -/
def c9Router : RouterState :=
  { routes := [("x", ⟨"127.0.0.1", 9000⟩)], running := false }

/-- Witness for C9: removing the absent route `y` leaves the concrete
table unchanged and returns no error. -/
theorem c9_routes_idempotent_witness :
    (removeRoute false c9Router "y").2.routes = c9Router.routes ∧
      (c9Router.running = false ∨ (false : Bool) = true →
        (removeRoute false c9Router "y").1 = none) :=
  (c9_routes_idempotent false c9Router "y" "" 0).2.2 (by decide)

/-! ## `Manager.List` -/

/-- How `Manager.List` folds the live runtime answer into a row it
returns: an `IsRunning` error keeps the stored status, otherwise the
status is overwritten with running or stopped. -/
def listStatus (p : Puck) (r : Option Bool) : Puck :=
  match r with
  | none => p
  | some true => { p with status := Status.running }
  | some false => { p with status := Status.stopped }

/-- `Manager.List`: fetch all rows, overwrite each returned status from
the runtime (`IsRunning` keyed by the stored runtime id), and return
them; the store itself is not written. -/
def managerList (env : String → Option Bool) (st : SysState) :
    List Puck × SysState :=
  (st.pucks.map (fun p => listStatus p (env p.id)), st)

/-- Default row used with `List.getD`. -/
def defPuck : Puck :=
  { id := "", name := "", image := "", status := .error, volumeDir := "",
    ports := [], hostPort := 0, containerIP := "" }

/-- C10: `Manager.List` leaves the state (in particular the stored rows)
unchanged and returns one row per stored puck, in order, where each
returned row keeps its name and carries status running or stopped
according to the runtime's live `IsRunning` answer — regardless of the
stored status, so a stored `checkpointed` puck whose container is
inspectable and not running is reported `stopped` — while a row whose
`IsRunning` call fails is returned exactly as stored. -/
theorem c10_list_live_status (env : String → Option Bool) (st : SysState) :
    (managerList env st).2 = st ∧
    (managerList env st).1.length = st.pucks.length ∧
    ∀ i, i < st.pucks.length →
      ((managerList env st).1.getD i defPuck).name =
        (st.pucks.getD i defPuck).name ∧
      (env (st.pucks.getD i defPuck).id = some true →
        ((managerList env st).1.getD i defPuck).status = Status.running) ∧
      (env (st.pucks.getD i defPuck).id = some false →
        ((managerList env st).1.getD i defPuck).status = Status.stopped) ∧
      (env (st.pucks.getD i defPuck).id = none →
        (managerList env st).1.getD i defPuck = st.pucks.getD i defPuck) := by
  refine ⟨rfl, by simp [managerList], ?_⟩
  intro i hi
  cases hq : st.pucks.get? i with
  | none =>
    rw [List.get?_eq_none] at hq
    omega
  | some p =>
    have h1 : st.pucks.getD i defPuck = p := by
      rw [List.getD_eq_getD_get?, hq]
      rfl
    have h2 : (managerList env st).1.getD i defPuck = listStatus p (env p.id) := by
      show (st.pucks.map (fun p => listStatus p (env p.id))).getD i defPuck = _
      rw [List.getD_eq_getD_get?, List.get?_map, hq]
      rfl
    rw [h1, h2]
    cases hr : env p.id with
    | none =>
      exact ⟨rfl, fun hx => absurd hx (by simp), fun hx => absurd hx (by simp),
        fun _ => rfl⟩
    | some b =>
      cases b with
      | true =>
        exact ⟨rfl, fun _ => rfl, fun hx => absurd hx (by simp),
          fun hx => absurd hx (by simp)⟩
      | false =>
        exact ⟨rfl, fun hx => absurd hx (by simp), fun _ => rfl,
          fun hx => absurd hx (by simp)⟩

/-- The checkpointed puck of the C10 witness. -/
def c10Puck : Puck :=
  { id := "c9", name := "w", image := "img", status := .checkpointed,
    volumeDir := "pucks/w", ports := [], hostPort := 9000, containerIP := "" }

/-- Witness for C10: a puck stored as checkpointed whose container is
inspectable and not running is reported as stopped, and the state is
unchanged. -/
theorem c10_list_live_status_witness :
    (managerList (fun _ => some false) ⟨[c10Puck], [], [], []⟩).2 =
      ⟨[c10Puck], [], [], []⟩ ∧
    ((managerList (fun _ => some false) ⟨[c10Puck], [], [], []⟩).1.getD 0
      defPuck).status = Status.stopped :=
  ⟨(c10_list_live_status (fun _ => some false) ⟨[c10Puck], [], [], []⟩).1,
    (((c10_list_live_status (fun _ => some false)
        ⟨[c10Puck], [], [], []⟩).2.2 0 (by decide)).2.2.1 rfl)⟩
